import Mathlib

/-!
Shallow embedding of `nscd_dump` (src/nscd_dump.c together with the layout
declarations of src/nscd-client.h and src/nscd.h), a read-only validator and
decoder for nscd persistent database files.

Modelling conventions:
* All machine integers are modelled as `Nat` (unsigned fields) or `Int` (the
  signed `nscd_ssize_t`/`int32_t` fields), with an explicit `% 2^32` (resp.
  `% 2^64`) wherever the C code performs arithmetic in `uint32_t` (`ref_t`)
  or `size_t` and a wraparound / implicit conversion is possible.
* The memory-mapped buffer is abstracted to the typed reads the program
  performs: a header value, a bucket-head function, and two read oracles
  giving the `struct hashentry` / `struct datahead` decoded at a heap
  offset.  Reading the same offset twice yields the same value, exactly as
  for an unchanging buffer.
* The byte-per-offset use map (`calloc(first_free, 1)` in the source) is a
  total function `Nat → Nat`; the C code provably only ever accesses indices
  `< first_free`, so the functional model coincides with the byte array.
* The C `assert (len >= 2)` in `check_use` is modelled as the distinguished
  outcome `VError.assertLenTooSmall`: reaching it corresponds to the C
  program aborting (or, with NDEBUG, running the loops with an unmet
  precondition).
* The unbounded C `while` loop over a bucket chain is modelled with an
  explicit fuel argument; `VError.outOfFuel` is an artifact of the embedding
  that is unreachable for the fuel budget the driver supplies, because every
  loop iteration claims 32 previously-free use-map bytes.
* The final `memcmp (mem, &head_copy, sizeof (*head))` re-reads the header
  from the shared buffer after the walk; a concurrent writer may have
  changed it.  The model therefore takes the header bytes observed by that
  final read as an explicit parameter `finalHead`; the undisturbed run is
  the instance `finalHead = db.head`.
* Each distinct error string returned by the C code is one constructor of
  `VError`; `calloc` failure ("Memory allocation failure") is not modelled
  (allocation always succeeds in the model).
-/

namespace NscdDump

/-- `BLOCK_ALIGN` from nscd.h (`1 << BLOCK_ALIGN_LOG`, log = 3).  The C code
tests alignment with the mask `BLOCK_ALIGN_M1 = 7`; masking a nonnegative
value with `7` equals taking it `% 8`, which is how the model writes it. -/
def BLOCK_ALIGN : Nat := 8

/-- `ENDREF` from nscd-client.h: `UINT32_MAX`, the "no reference" sentinel. -/
def ENDREF : Nat := 4294967295

/-- `DB_VERSION` from nscd-client.h. -/
def DB_VERSION : Int := 1

/-- `sizeof (struct database_pers_head)` (x86-64 layout: 4 int32, 1 uint64,
6 int32, 7 uint64 = 104 bytes, no padding). -/
def HEADER_SIZE : Int := 104

/-- `sizeof (struct hashentry)` (x86-64 layout: byte-sized type/first fields,
padding, 5 32-bit fields, 8-byte union = 32 bytes). -/
def SIZEOF_HASHENTRY : Nat := 32

/-- `sizeof (struct datahead)` (x86-64 layout: 2 int32, 1 uint64, 3 uint8,
40-bit padding bit-field = 24 bytes; the flexible `data[0]` union follows). -/
def SIZEOF_DATAHEAD : Nat := 24

/-- `INT32_MAX`. -/
def INT32_MAX : Int := 2147483647

/-- Value of a signed 32/64-bit quantity after conversion to `size_t`
(64-bit unsigned); negative values sign-extend, i.e. reduce mod 2^64. -/
def sizeT (i : Int) : Nat := (i % 18446744073709551616).toNat

/-- Value of a signed quantity after conversion to `uint32_t` (`ref_t`). -/
def u32 (i : Int) : Nat := (i % 4294967296).toNat

/-- 2^32, the modulus of `uint32_t` (`ref_t`) arithmetic. -/
def U32 : Nat := 4294967296

/-- The `enum usekey` constants from nscd_dump.c. -/
def use_not : Nat := 0

/-- `use_first = 16`. -/
def use_first : Nat := 16

/-- `use_begin = 32`. -/
def use_begin : Nat := 32

/-- `use_end = 64`. -/
def use_end : Nat := 64

/-- `use_he = 1`. -/
def use_he : Nat := 1

/-- `use_data = 3`. -/
def use_data : Nat := 3

/-- `x & ~use_first` for byte-range values `x < 256`: mask with
`255 - 16 = 239` (the C operand is an `int`, but every value stored in the
use map or passed as `use` fits in a byte). -/
def stripFirst (x : Nat) : Nat := x &&& 239

/-- One constructor per distinct outcome of the C validator: each
corresponds to one error-message string returned by `check_use` /
`verify_persistent_db` (listed in the comments), plus the two
embedding-level outcomes `assertLenTooSmall` and `outOfFuel` described in
the file header. -/
inductive VError where
  | headerReadDiffers         -- "Header read differs from databas header"
  | invalidVersion            -- "Invalid database version"
  | headerSizeMismatch        -- "Header size in database differs from expected"
  | futureTimestamp           -- "Future timestamp in header"
  | invalidGcCycle            -- "Invalid GC cycle value"
  | noDataModules             -- "No data modules in database"
  | excessiveModules          -- "Excessive number of data modules"
  | dataSizeTooLarge          -- "Data size is larger than in data modules"
  | negativeFirstFree         -- "Negative offset of first free byte"
  | firstFreeBeyondDataSize   -- "Offset to first free byte is larger than data size"
  | firstFreeMisaligned       -- "Offset of first free byte isn't properly aligned"
  | negativeMaxEntries        -- "Negative number of maximum entries"
  | negativeMaxSearched       -- "Negative number of maximum search entries"
  | assertLenTooSmall         -- the C `assert (len >= 2)` fires
  | entryNotAligned           -- "Hash entry isn't properly aligned" (also the out-of-bounds case)
  | entryNotFree              -- "Hash entry isn't marked as free where it has to be"
  | cannotShare               -- "Hash entry can't be shared"
  | entryNotInUse             -- "Hash entry isn't marked as in use where it has to be"
  | entryNotLast              -- "Hash entry isn't marked as last onee where it has to be"
  | invalidPointer            -- "Invalid pointer to a hash entry"
  | recordTypeOutOfBounds     -- "Record type is out of bounds"
  | invalidRecordType         -- "Invalid record type"
  | invalidBooleanField       -- "Invalid boolean field"
  | negativeRecordLength      -- "Negative record length"
  | negativePacketOffset      -- "Negative packet offset" (ref_t is unsigned: never fires)
  | packetBeyondFirstFree     -- "Packet offset beyond first free byte"
  | packetDataBeyondFirstFree -- "Packet data offset beyond first free byte"
  | invalidFirstField         -- "Invalid \"first\" field contents"
  | shortDataHeaderSize       -- "Short data header size"
  | dataSizeAboveAllocated    -- "Data size is above allocated one"
  | invalidNotfoundField      -- "Invalid \"notfound\" field contents"
  | invalidUsableField        -- "Invalid \"usable\" field contents"
  | invalidHashEntry          -- "Invalid hash entry"
  | circularListDetected      -- "Circullar list detected"
  | countMismatch             -- "Actual number of records doesn't match with one in header"
  | unreferencedData          -- "Unreferenced data and/or keys found"
  | headerChanged             -- "Database header changed in transit"
  | outOfFuel                 -- artifact of the fuel-based embedding of the while loop
deriving DecidableEq

/-- The use map: one tag byte per heap offset (`uint8_t *usemap`). -/
def Usemap : Type := Nat → Nat

/-- Point update of the use map (`usemap[i] = v`). -/
def umSet (um : Usemap) (i v : Nat) : Usemap := fun j => if j = i then v else um j

/-- The all-zero use map produced by `calloc (head->first_free, 1)`. -/
def zeroUsemap : Usemap := fun _ => 0

/-- The first loop of `check_use`'s fresh-range branch:
`while (--len > 0) { if (usemap[++start] != use_not) return err; usemap[start] = use; }`.
`k` is the remaining number of loop-body executions (initially `len - 1`);
returns the updated map and the final value of `start`. -/
def fillLoop : Usemap → Nat → Nat → Nat → Except VError (Usemap × Nat)
  | um, _, s, 0 => .ok (um, s)
  | um, use, s, k + 1 =>
    if um (s + 1) ≠ use_not then .error .entryNotFree
    else fillLoop (umSet um (s + 1) use) use (s + 1) k

/-- The loop of `check_use`'s sharing branch:
`while (--len > 1) if (usemap[++start] != use) return err;`.
`k` is the remaining number of loop-body executions (initially `len - 2`);
returns the final value of `start`. -/
def shareLoop : Usemap → Nat → Nat → Nat → Except VError Nat
  | _, _, s, 0 => .ok s
  | um, use, s, k + 1 =>
    if um (s + 1) ≠ use then .error .entryNotInUse
    else shareLoop um use (s + 1) k

/-- `check_use (data, first_free, usemap, use, start, len)` from
nscd_dump.c.  `first_free` is the (nonnegative, already header-checked)
first-free offset, `len` the `size_t` value of the length argument.
Success returns the updated use map; failure returns the error whose C
message is listed at the `VError` constructor. -/
def check_use (first_free : Nat) (usemap : Usemap) (use start len : Nat) :
    Except VError Usemap :=
  -- assert (len >= 2);
  if len < 2 then .error .assertLenTooSmall
  -- start/bounds/alignment guard (one combined error message in the C code)
  else if start > first_free ∨ start + len > first_free ∨ start % BLOCK_ALIGN ≠ 0 then
    .error .entryNotAligned
  else if usemap start = use_not then
    -- fresh range: begin marker (keeping use_first), fill, end marker
    match fillLoop (umSet usemap start (use ||| use_begin)) (stripFirst use) start (len - 1) with
    | .error e => .error e
    | .ok (um2, s2) => .ok (umSet um2 s2 (stripFirst use ||| use_end))
  else if stripFirst (usemap start) = stripFirst (use ||| use_begin) then
    -- the start byte already carries this kind's begin marker: sharing attempt
    if use = use_he then .error .cannotShare
    else
      -- usemap[start] |= (use & use_first)
      match shareLoop (umSet usemap start (usemap start ||| (use &&& use_first)))
          (stripFirst use) start (len - 2) with
      | .error e => .error e
      | .ok s2 =>
        if umSet usemap start (usemap start ||| (use &&& use_first)) (s2 + 1)
            ≠ (stripFirst use ||| use_end) then .error .entryNotLast
        else .ok (umSet usemap start (usemap start ||| (use &&& use_first)))
  else .error .invalidPointer

/-- `struct hashentry` (nscd-client.h).  `type` and `first` are the raw
byte values read from the buffer (`first` is validated to be 0/1 by the
walker); `len` is the signed `nscd_ssize_t`; `key`, `next`, `packet` are
`ref_t` (unsigned 32-bit) offsets. -/
structure HashEntry where
  type : Nat
  first : Nat
  len : Int
  key : Nat
  owner : Int
  next : Nat
  packet : Nat

/-- `struct datahead` (nscd-client.h): `allocsize`/`recsize` are signed
`nscd_ssize_t`; `notfound`/`usable` are raw byte values validated to be
0/1. -/
structure DataHead where
  allocsize : Int
  recsize : Int
  timeout : Nat
  notfound : Nat
  nreloads : Nat
  usable : Nat

/-- `struct database_pers_head` (nscd-client.h), minus the flexible
`array[0]` bucket array (which `memcmp (…, sizeof (*head))` does not
cover).  Equality of two values corresponds to `memcmp == 0` on the
104-byte header. -/
structure DBHeader where
  version : Int
  header_size : Int
  gc_cycle : Int
  nscd_certainly_running : Int
  timestamp : Nat
  module : Int
  data_size : Int
  first_free : Int
  nentries : Int
  maxnentries : Int
  maxnsearched : Int
  poshit : Nat
  neghit : Nat
  posmiss : Nat
  negmiss : Nat
  rdlockdelayed : Nat
  wrlockdelayed : Nat
  addfailed : Nat
deriving DecidableEq

/-- The mapped database buffer, abstracted to the typed reads the program
performs: the header at offset 0, the bucket-head array
(`head->array[cnt]`), and the `struct hashentry` / `struct datahead`
decoded at a given offset into the data area (`data + work`,
`data + here->packet`). -/
structure DB where
  head : DBHeader
  buckets : Nat → Nat
  readHE : Nat → HashEntry
  readDH : Nat → DataHead

/-- The header sanity checks of `verify_persistent_db` (nscd_dump.c lines
150-187), in source order, first failure winning.  `now` is the value of
`time (NULL)`. -/
def headerCheck (h : DBHeader) (now : Nat) : Option VError :=
  if h.version ≠ DB_VERSION then some .invalidVersion
  else if h.header_size ≠ HEADER_SIZE then some .headerSizeMismatch
  -- head->timestamp > now + 60 * 60 + 60
  else if h.timestamp > now + 60 * 60 + 60 then some .futureTimestamp
  -- head->gc_cycle & 1  (bit 0 of the two's-complement value: oddness)
  else if h.gc_cycle % 2 ≠ 0 then some .invalidGcCycle
  else if h.module = 0 then some .noDataModules
  -- (size_t) head->module > INT32_MAX / sizeof (ref_t)
  else if sizeT h.module > 536870911 then some .excessiveModules
  -- (size_t) head->data_size > INT32_MAX - head->module * sizeof (ref_t)
  -- (the subtraction cannot underflow here: sizeT module ≤ 536870911)
  else if sizeT h.data_size > 2147483647 - 4 * sizeT h.module then some .dataSizeTooLarge
  else if h.first_free < 0 then some .negativeFirstFree
  else if h.first_free > h.data_size then some .firstFreeBeyondDataSize
  -- (head->first_free & BLOCK_ALIGN_M1) != 0
  else if h.first_free.toNat % BLOCK_ALIGN ≠ 0 then some .firstFreeMisaligned
  else if h.maxnentries < 0 then some .negativeMaxEntries
  else if h.maxnsearched < 0 then some .negativeMaxSearched
  else none

/-- The per-entry field checks performed before the data-record claim
(nscd_dump.c lines 216-260): record type, boolean flag, key length and
packet-offset checks, in source order. -/
def entryFieldChecks (here : HashEntry) (first_free : Nat) : Option VError :=
  -- here->type >= LASTREQ (= 16)
  if here.type ≥ 16 then some .recordTypeOutOfBounds
  -- GETHOSTBYNAME = 4, GETHOSTBYNAMEv6 = 5, GETHOSTBYADDR = 6,
  -- GETHOSTBYADDRv6 = 7, GETAI = 14
  else if ¬ (here.type = 4 ∨ here.type = 5 ∨ here.type = 6 ∨ here.type = 7 ∨ here.type = 14)
    then some .invalidRecordType
  else if here.first ≠ 0 ∧ here.first ≠ 1 then some .invalidBooleanField
  else if here.len < 0 then some .negativeRecordLength
  -- here->packet < 0: ref_t is unsigned, the comparison is never true
  else if (here.packet : Int) < 0 then some .negativePacketOffset
  else if here.packet > first_free then some .packetBeyondFirstFree
  else if here.packet + SIZEOF_DATAHEAD > first_free then some .packetDataBeyondFirstFree
  -- duplicated boolean check in the source (lines 257-260)
  else if here.first ≠ 0 ∧ here.first ≠ 1 then some .invalidFirstField
  else none

/-- The data-record field checks performed after the data-record claim
(nscd_dump.c lines 272-306): `allocsize`/`recsize` and flag checks, then
the key-range check.  `here->packet + dh->allocsize` and
`here->key + here->len` are computed in `uint32_t` (`% U32`), matching the
C integer conversions; `here->packet + sizeof (struct datahead)` is
computed in `size_t` (exact). -/
def dataheadChecks (here : HashEntry) (dh : DataHead) : Option VError :=
  if dh.allocsize < (SIZEOF_DATAHEAD : Int) then some .shortDataHeaderSize
  else if dh.recsize > dh.allocsize then some .dataSizeAboveAllocated
  else if dh.notfound ≠ 0 ∧ dh.notfound ≠ 1 then some .invalidNotfoundField
  else if dh.usable ≠ 0 ∧ dh.usable ≠ 1 then some .invalidUsableField
  else if here.key < here.packet + SIZEOF_DATAHEAD
      ∨ here.key > (here.packet + u32 dh.allocsize) % U32
      ∨ (here.key + u32 here.len) % U32 > (here.packet + u32 dh.allocsize) % U32
    then some .invalidHashEntry
  else none

/-- The per-entry validation performed inside the chain-walk loop of
`verify_persistent_db` (nscd_dump.c lines 216-306): the field checks, then
the data-record `check_use` claim with length `dh->allocsize` (converted
to `size_t`) and the canonical (`use_first`) tag iff `here->first` is
truthy, then the data-record head checks.  `um` is the use map after the
hash-entry claim for this entry; success returns the use map after the
data-record claim. -/
def checkEntryStep (db : DB) (first_free : Nat) (um : Usemap) (here : HashEntry) :
    Except VError Usemap :=
  match entryFieldChecks here first_free with
  | some e => .error e
  | none =>
    match check_use first_free um (use_data ||| (if here.first ≠ 0 then use_first else 0))
        here.packet (sizeT (db.readDH here.packet).allocsize) with
    | .error e => .error e
    | .ok um2 =>
      match dataheadChecks here (db.readDH here.packet) with
      | some e => .error e
      | none => .ok um2

/-- `here->next` as a function of the offset: the successor offset in a
bucket chain. -/
def nextOf (db : DB) (w : Nat) : Nat := (db.readHE w).next

/-- The `while (work != ENDREF)` loop of `verify_persistent_db` for one
bucket (nscd_dump.c lines 202-320), with the tortoise (`trail`) advanced
on every other iteration (`tick`).  `he_cnt` is the running entry count;
returns the final use map and count.  `fuel` bounds the number of
iterations (see the file header). -/
def walkChain (db : DB) (first_free : Nat) :
    Nat → Usemap → Nat → Nat → Nat → Nat → Except VError (Usemap × Nat)
  | 0, _, _, _, _, _ => .error .outOfFuel
  | fuel + 1, um, he_cnt, work, trail, tick =>
    if work = ENDREF then .ok (um, he_cnt)
    else
      match check_use first_free um use_he work SIZEOF_HASHENTRY with
      | .error e => .error e
      | .ok um1 =>
        match checkEntryStep db first_free um1 (db.readHE work) with
        | .error e => .error e
        | .ok um2 =>
          -- work = here->next; if (work == trail) -> circular list
          if (db.readHE work).next = trail then .error .circularListDetected
          -- if (tick) trail = ((struct hashentry *) (data + trail))->next;
          else if tick ≠ 0 then
            walkChain db first_free fuel um2 (he_cnt + 1) (db.readHE work).next
              (nextOf db trail) (1 - tick)
          else
            walkChain db first_free fuel um2 (he_cnt + 1) (db.readHE work).next
              trail (1 - tick)

/-- The outer `for (cnt = 0; cnt < head->module; ++cnt)` loop over the
bucket heads, threading the use map and the entry count. -/
def walkBuckets (db : DB) (first_free fuel : Nat) :
    List Nat → Usemap → Nat → Except VError (Usemap × Nat)
  | [], um, he_cnt => .ok (um, he_cnt)
  | c :: cs, um, he_cnt =>
    match walkChain db first_free fuel um he_cnt (db.buckets c) (db.buckets c) 0 with
    | .error e => .error e
    | .ok (um2, cnt2) => walkBuckets db first_free fuel cs um2 cnt2

/-- `verify_persistent_db (mem, readhead)` from nscd_dump.c.  `readhead`
is the separately read header copy, `now` the value of `time (NULL)`, and
`finalHead` the header bytes observed by the final
`memcmp (mem, &head_copy, …)` re-read (equal to `db.head` when no
concurrent writer mutates the buffer).  Returns `none` on success,
`some e` for the error whose C message is listed at the constructor of
`e`. -/
def verify_persistent_db (db : DB) (readhead : DBHeader) (now : Nat)
    (finalHead : DBHeader) : Option VError :=
  -- memcmp (head, readhead, sizeof (*head)) != 0
  if db.head ≠ readhead then some .headerReadDiffers
  else match headerCheck db.head now with
  | some e => some e
  | none =>
    match walkBuckets db db.head.first_free.toNat (db.head.first_free.toNat + 2)
        (List.range db.head.module.toNat) zeroUsemap 0 with
    | .error e => some e
    | .ok (um, he_cnt) =>
      -- he_cnt != head->nentries
      if (he_cnt : Int) ≠ db.head.nentries then some .countMismatch
      -- for (idx = 0; idx < head->first_free; ++idx) if (usemap[idx] == use_data_begin) …
      else if (List.range db.head.first_free.toNat).any
          (fun idx => um idx == use_data ||| use_begin) then some .unreferencedData
      -- memcmp (mem, &head_copy, sizeof (*head)) != 0
      else if finalHead ≠ db.head then some .headerChanged
      else none

/-- The chain of offsets the `while (work != ENDREF)` loop visits from a
bucket head: `w`, `next(w)`, `next(next(w))`, …, stopping at `ENDREF`
(with the same fuel bound as `walkChain`). -/
def chainList (db : DB) : Nat → Nat → List Nat
  | 0, _ => []
  | fuel + 1, w => if w = ENDREF then [] else w :: chainList db fuel (nextOf db w)

/-- The number of records `print_entries` (nscd_dump.c lines 533-581)
visits and decodes in one bucket chain: it follows `here->next` with no
validation until `ENDREF` (fuel-bounded in the model; `print_entries` is
only called on a validated database, whose chains are finite). -/
def printChainCount (db : DB) : Nat → Nat → Nat
  | 0, _ => 0
  | fuel + 1, work =>
    if work = ENDREF then 0
    else 1 + printChainCount db fuel (nextOf db work)

/-- Total number of records `print_entries` decodes over all buckets. -/
def print_entries_count (db : DB) (fuel : Nat) : Nat :=
  ((List.range db.head.module.toNat).map (fun c => printChainCount db fuel (db.buckets c))).sum

/-- `hst_response_header` (nscd-client.h): all fields `int32_t` /
`nscd_ssize_t` (signed 32-bit). -/
structure HstResponseHeader where
  version : Int
  found : Int
  h_name_len : Int
  h_aliases_cnt : Int
  h_addrtype : Int
  h_length : Int
  h_addr_list_cnt : Int
  error : Int

/-- `ai_response_header` (nscd-client.h). -/
structure AiResponseHeader where
  version : Int
  found : Int
  naddrs : Int
  addrslen : Int
  canonlen : Int
  error : Int

/-- The `consumed` count (a `ref_t`, i.e. `uint32_t`) returned by
`print_hst_resp_data` (nscd_dump.c lines 420-488).  `aliases_len i` is the
`uint32_t` value the code reads at `aliases_len[i]`.  The function mirrors
the source exactly: `sizeof (*hst_resp)` = 32, then `h_name_len`, then (if
`h_aliases_cnt` is nonzero) `sizeof (uint32_t) * h_aliases_cnt`, then
`h_length` per address-list element, then the `aliases_len` values; each
`consumed +=` wraps in `uint32_t`.  Note the function performs no bounds
check of any of these untrusted fields and has no failure outcome. -/
def print_hst_resp_data_consumed (hst : HstResponseHeader) (aliases_len : Nat → Nat) : Nat :=
  let c0 := 32
  let c1 := (c0 + u32 hst.h_name_len) % U32
  let c2 := if hst.h_aliases_cnt ≠ 0 then (c1 + 4 * sizeT hst.h_aliases_cnt % U32) % U32 else c1
  let c3 := (c2 + hst.h_addr_list_cnt.toNat * u32 hst.h_length) % U32
  if hst.h_aliases_cnt ≠ 0 then
    (c3 + ((List.range hst.h_aliases_cnt.toNat).map aliases_len).sum) % U32
  else c3

/-- The byte offsets into `resp_data` read by the canonical-name loop of
`print_hst_resp_data`: `for (i = 0; i < hst_resp->h_name_len - 1; i++)
printf ("%c", resp_data[i])`. -/
def print_hst_name_reads (hst : HstResponseHeader) : List Nat :=
  List.range (hst.h_name_len - 1).toNat

/-- The `consumed` count returned by `print_ai_resp_data` (nscd_dump.c
lines 490-531).  `families i` is the byte the code reads at `families[i]`;
`AF_INET6 = 10` selects a 16-byte address, anything else 4 bytes
(`sizeof (struct in6_addr)` / `sizeof (struct in_addr)`), plus one byte
per family tag; then `canonlen`.  Again no bounds checks and no failure
outcome. -/
def print_ai_resp_data_consumed (ai : AiResponseHeader) (families : Nat → Nat) : Nat :=
  let c0 := 24
  let c1 := (c0 + ((List.range ai.naddrs.toNat).map
      (fun i => (if families i = 10 then 16 else 4) + 1)).sum) % U32
  (c1 + u32 ai.canonlen) % U32

/-- Hash entry whose fields are all zero (only used where never read). -/
def heD : HashEntry := ⟨0, 0, 0, 0, 0, 0, 0⟩

/-- Data-record head whose fields are all zero (only used where never read). -/
def dhD : DataHead := ⟨0, 0, 0, 0, 0, 0⟩

/-- A header that passes every header check: version 1, size 104, even GC
cycle, timestamp 0, zero statistics; bucket count, data size, first-free
offset and entry count as given. -/
def mkHead (module ds ff ne : Int) : DBHeader :=
  ⟨1, 104, 0, 0, 0, module, ds, ff, ne, 0, 0, 0, 0, 0, 0, 0, 0, 0⟩

/-- Two-entry circular chain: entry A at offset 0 (canonical) and entry B
at offset 32 share the data record at offset 64; B's `next` points back to
A (the chain head). -/
def db2cyc : DB where
  head := mkHead 1 96 96 2
  buckets := fun _ => 0
  readHE := fun w =>
    if w = 32 then ⟨4, 0, 2, 88, 0, 0, 64⟩ else ⟨4, 1, 2, 88, 0, 32, 64⟩
  readDH := fun _ => ⟨32, 0, 0, 0, 0, 1⟩

/-- Three-entry circular chain 0 → 32 → 64 → 0, all three sharing the data
record at offset 96 (entry 0 canonical); every per-entry check passes, the
cycle closes back to the bucket head. -/
def db3cyc : DB where
  head := mkHead 1 128 128 3
  buckets := fun _ => 0
  readHE := fun w =>
    if w = 32 then ⟨4, 0, 2, 120, 0, 64, 96⟩
    else if w = 64 then ⟨4, 0, 2, 120, 0, 0, 96⟩
    else ⟨4, 1, 2, 120, 0, 32, 96⟩
  readDH := fun _ => ⟨32, 0, 0, 0, 0, 1⟩

/-- One non-canonical entry (first = 0) at offset 0 referencing the data
record at offset 32: the data range is claimed but never canonically
referenced (an orphan for the post-walk scan). -/
def dbOrphan : DB where
  head := mkHead 1 64 64 1
  buckets := fun _ => 0
  readHE := fun _ => ⟨4, 0, 2, 56, 0, ENDREF, 32⟩
  readDH := fun _ => ⟨32, 0, 0, 0, 0, 1⟩

/-- One entry whose data record declares `allocsize = 0`: the walker passes
that length to `check_use` before ever comparing it with
`sizeof (struct datahead)`. -/
def dbShortAlloc : DB where
  head := mkHead 1 64 64 1
  buckets := fun _ => 0
  readHE := fun _ => ⟨4, 1, 0, 0, 0, ENDREF, 32⟩
  readDH := fun _ => ⟨0, 0, 0, 0, 0, 0⟩

/-- The boundary database of the spec: one bucket whose head is the
`ENDREF` sentinel, no entries, empty data area. -/
def dbEmpty : DB where
  head := mkHead 1 8 0 0
  buckets := fun _ => ENDREF
  readHE := fun _ => heD
  readDH := fun _ => dhD

/-- One valid canonical entry at offset 0 with its data record at offset
32: a database that validates successfully. -/
def dbOneGood : DB where
  head := mkHead 1 64 64 1
  buckets := fun _ => 0
  readHE := fun _ => ⟨4, 1, 2, 56, 0, ENDREF, 32⟩
  readDH := fun _ => ⟨32, 0, 0, 0, 0, 1⟩

/-- The header checks as the specification words them, in the
specification's order with the first failure winning: format version
matches the single supported version; declared header size matches the
model's fixed size; the timestamp is not more than one hour plus sixty
seconds (3660 s) in the future; the generation counter is even; the bucket
count is nonzero and small enough that `bucket_count * offset_size` cannot
overflow a 32-bit size computation (`4 * module ≤ INT32_MAX`); the heap
size is consistent with the bucket count under the same overflow guard
(`data_size + 4 * module ≤ INT32_MAX`); `first_free` is non-negative, at
most the heap size, and alignment-correct; `maxnentries` and
`maxnsearched` are non-negative. -/
def headerCheckSpec (h : DBHeader) (now : Nat) : Option VError :=
  if h.version ≠ DB_VERSION then some .invalidVersion
  else if h.header_size ≠ HEADER_SIZE then some .headerSizeMismatch
  else if now + 3660 < h.timestamp then some .futureTimestamp
  else if h.gc_cycle % 2 ≠ 0 then some .invalidGcCycle
  else if h.module = 0 then some .noDataModules
  else if 2147483647 < 4 * sizeT h.module then some .excessiveModules
  else if 2147483647 < sizeT h.data_size + 4 * sizeT h.module then some .dataSizeTooLarge
  else if h.first_free < 0 then some .negativeFirstFree
  else if h.data_size < h.first_free then some .firstFreeBeyondDataSize
  else if h.first_free.toNat % BLOCK_ALIGN ≠ 0 then some .firstFreeMisaligned
  else if h.maxnentries < 0 then some .negativeMaxEntries
  else if h.maxnsearched < 0 then some .negativeMaxSearched
  else none

/-- A host response header whose `h_name_len` (1000) vastly exceeds the 40
payload bytes of a data record with `allocsize = 64`: the name-printing
loop will read 999 bytes. -/
def hstBad : HstResponseHeader := ⟨0, 1, 1000, 0, 2, 4, 0, 0⟩

/-- An address-info response header whose `canonlen` (500) vastly exceeds
the 40 payload bytes of a data record with `allocsize = 64`. -/
def aiBad : AiResponseHeader := ⟨0, 1, 0, 0, 500, 0⟩

/-- Extract the updated use map from a successful `check_use` (used only
to state concrete instances). -/
def okMap (x : Except VError Usemap) : Usemap :=
  match x with
  | .ok um => um
  | .error _ => zeroUsemap

theorem umSet_same (um : Usemap) (i v : Nat) : umSet um i v i = v := by
  simp [umSet]

theorem umSet_other (um : Usemap) {i j : Nat} (v : Nat) (h : j ≠ i) :
    umSet um i v j = um j := by
  simp [umSet, h]

theorem fillLoop_pres {u : Nat} :
    ∀ (k : Nat) (um : Usemap) (s : Nat) (r : Usemap × Nat) (o : Nat),
      um o ≠ 0 → fillLoop um u s k = .ok r → r.1 o = um o := by
  intro k
  induction k with
  | zero =>
    intro um s r o ho h
    simp only [fillLoop] at h
    cases h
    rfl
  | succ k ih =>
    intro um s r o ho h
    simp only [fillLoop] at h
    split at h
    · cases h
    next hz =>
      have hz0 : um (s + 1) = 0 := not_not.mp hz
      have hne : o ≠ s + 1 := fun he => ho (by rw [he, hz0])
      have hpres := ih (umSet um (s + 1) u) (s + 1) r o
        (by rw [umSet_other um u hne]; exact ho) h
      rw [hpres, umSet_other um u hne]

theorem fillLoop_snd {u : Nat} :
    ∀ (k : Nat) (um : Usemap) (s : Nat) (r : Usemap × Nat),
      fillLoop um u s k = .ok r → r.2 = s + k := by
  intro k
  induction k with
  | zero =>
    intro um s r h
    simp only [fillLoop] at h
    cases h
    rfl
  | succ k ih =>
    intro um s r h
    simp only [fillLoop] at h
    split at h
    · cases h
    · have := ih _ _ r h
      omega

theorem fillLoop_last {u : Nat} :
    ∀ (k : Nat) (um : Usemap) (s : Nat) (r : Usemap × Nat),
      1 ≤ k → fillLoop um u s k = .ok r → r.1 r.2 = u := by
  intro k
  induction k with
  | zero => intro _ _ _ hk; omega
  | succ k ih =>
    intro um s r _ h
    simp only [fillLoop] at h
    split at h
    · cases h
    next hz =>
      match k, h with
      | 0, h =>
        simp only [fillLoop] at h
        cases h
        exact umSet_same _ _ _
      | k + 1, h => exact ih _ _ r (by omega) h

theorem fillLoop_err {u : Nat} :
    ∀ (k : Nat) (um : Usemap) (s : Nat),
      (∃ i, s < i ∧ i ≤ s + k ∧ um i ≠ 0) →
      fillLoop um u s k = .error .entryNotFree := by
  intro k
  induction k with
  | zero =>
    intro um s h
    obtain ⟨i, h1, h2, _⟩ := h
    omega
  | succ k ih =>
    intro um s h
    obtain ⟨i, h1, h2, h3⟩ := h
    simp only [fillLoop]
    split
    · rfl
    next hz =>
      have hz0 : um (s + 1) = 0 := not_not.mp hz
      have hne : i ≠ s + 1 := fun he => h3 (by rw [he, hz0])
      exact ih _ _ ⟨i, by omega, by omega, by rw [umSet_other um u hne]; exact h3⟩

theorem fillLoop_char {u : Nat} :
    ∀ (k : Nat) (um : Usemap) (s : Nat) (r : Usemap × Nat),
      fillLoop um u s k = .ok r →
      ∀ i, r.1 i = if s < i ∧ i ≤ s + k then u else um i := by
  intro k
  induction k with
  | zero =>
    intro um s r h i
    simp only [fillLoop] at h
    cases h
    simp only []
    rw [if_neg (by omega)]
  | succ k ih =>
    intro um s r h i
    simp only [fillLoop] at h
    split at h
    · cases h
    next hz =>
      have := ih _ _ r h i
      rw [this]
      by_cases hi : i = s + 1
      · subst hi
        rw [if_neg (by omega), umSet_same, if_pos (by omega)]
      · rw [umSet_other um u hi]
        by_cases hin : s + 1 < i ∧ i ≤ s + 1 + k
        · rw [if_pos hin, if_pos (by omega)]
        · rw [if_neg hin, if_neg (by omega)]

theorem shareLoop_ok {u : Nat} :
    ∀ (k : Nat) (um : Usemap) (s : Nat),
      (∀ i, s < i → i ≤ s + k → um i = u) →
      shareLoop um u s k = .ok (s + k) := by
  intro k
  induction k with
  | zero => intro um s _; rfl
  | succ k ih =>
    intro um s h
    simp only [shareLoop]
    rw [if_neg (not_not.mpr (h (s + 1) (by omega) (by omega)))]
    have := ih um (s + 1) (fun i h1 h2 => h i (by omega) (by omega))
    rw [this]
    congr 1
    omega

theorem check_use_ok_bounds {ff u s l : Nat} {um um1 : Usemap}
    (h : check_use ff um u s l = .ok um1) :
    2 ≤ l ∧ s ≤ ff ∧ s + l ≤ ff ∧ s % BLOCK_ALIGN = 0 := by
  unfold check_use at h
  split at h
  · cases h
  next hlen =>
    split at h
    · cases h
    next hguard =>
      push_neg at hguard
      exact ⟨by omega, by omega, by omega, hguard.2.2⟩

theorem check_use_wrong_tag {ff u s l : Nat} {um : Usemap}
    (hl : 2 ≤ l) (hb : s + l ≤ ff) (hal : s % BLOCK_ALIGN = 0)
    (hs : um s ≠ use_not) (hg : stripFirst (um s) ≠ stripFirst (u ||| use_begin)) :
    check_use ff um u s l = .error .invalidPointer := by
  unfold check_use
  rw [if_neg (by omega),
      if_neg (by push_neg; exact ⟨by omega, by omega, hal⟩),
      if_neg hs, if_neg hg]

theorem check_use_fresh_err {ff u s l : Nat} {um : Usemap}
    (hl : 2 ≤ l) (hb : s + l ≤ ff) (hal : s % BLOCK_ALIGN = 0)
    (hs : um s = use_not)
    (hx : ∃ i, s < i ∧ i ≤ s + (l - 1) ∧ um i ≠ 0) :
    check_use ff um u s l = .error .entryNotFree := by
  unfold check_use
  rw [if_neg (by omega),
      if_neg (by push_neg; exact ⟨by omega, by omega, hal⟩),
      if_pos hs]
  obtain ⟨i, h1, h2, h3⟩ := hx
  have hne : i ≠ s := by omega
  have herr := fillLoop_err (u := stripFirst u) (l - 1)
    (umSet um s (u ||| use_begin)) s
    ⟨i, h1, h2, by rw [umSet_other um _ hne]; exact h3⟩
  rw [herr]

theorem check_use_fresh_char {ff u s l : Nat} {um1 : Usemap}
    (h : check_use ff zeroUsemap u s l = .ok um1) :
    ∀ i, um1 i =
      if i = s then u ||| use_begin
      else if s < i ∧ i < s + l - 1 then stripFirst u
      else if i = s + l - 1 then stripFirst u ||| use_end
      else 0 := by
  have hb := check_use_ok_bounds h
  unfold check_use at h
  rw [if_neg (by omega),
      if_neg (by push_neg; exact ⟨by omega, by omega, hb.2.2.2⟩),
      if_pos (show zeroUsemap s = use_not from rfl)] at h
  split at h
  · cases h
  next um2 s2 heq =>
    cases h
    have hsnd : s2 = s + (l - 1) := fillLoop_snd (l - 1) _ s (um2, s2) heq
    have hchar : ∀ i, um2 i =
        if s < i ∧ i ≤ s + (l - 1) then stripFirst u
        else umSet zeroUsemap s (u ||| use_begin) i :=
      fillLoop_char (l - 1) _ s (um2, s2) heq
    intro i
    by_cases hi1 : i = s
    · subst hi1
      rw [if_pos rfl, umSet_other _ _ (by omega), hchar, if_neg (by omega),
          umSet_same]
    · rw [if_neg hi1]
      by_cases hi2 : s < i ∧ i < s + l - 1
      · rw [if_pos hi2, umSet_other _ _ (by omega), hchar, if_pos (by omega)]
      · rw [if_neg hi2]
        by_cases hi3 : i = s + l - 1
        · rw [if_pos hi3]
          have : i = s2 := by omega
          rw [this, umSet_same]
        · rw [if_neg hi3, umSet_other _ _ (by omega), hchar, if_neg (by omega),
              umSet_other _ _ hi1]
          rfl

theorem check_use_he_marks {ff s l : Nat} {um um1 : Usemap}
    (h : check_use ff um use_he s l = .ok um1) :
    um s = 0 ∧ um1 s = 33 := by
  have hb := check_use_ok_bounds h
  unfold check_use at h
  rw [if_neg (by omega),
      if_neg (by push_neg; exact ⟨by omega, by omega, hb.2.2.2⟩)] at h
  split at h
  next hz =>
    refine ⟨hz, ?_⟩
    split at h
    · cases h
    next um2 s2 heq =>
      cases h
      have hsnd : s2 = s + (l - 1) := fillLoop_snd (l - 1) _ s (um2, s2) heq
      have hpres : um2 s = umSet um s (use_he ||| use_begin) s :=
        fillLoop_pres (l - 1) _ s (um2, s2) s (by rw [umSet_same]; decide) heq
      rw [umSet_other _ _ (by omega), hpres, umSet_same]
      decide
  next hz =>
    split at h
    next hshare =>
      rw [if_pos rfl] at h
      cases h
    · cases h

theorem check_use_he_marked_not_ok {ff s l : Nat} {um um1 : Usemap}
    (hm : um s = 33) (h : check_use ff um use_he s l = .ok um1) : False := by
  unfold check_use at h
  split at h
  · cases h
  split at h
  · cases h
  rw [if_neg (by rw [hm]; decide)] at h
  rw [if_pos (by rw [hm]; decide)] at h
  rw [if_pos rfl] at h
  cases h

theorem check_use_he_reshare {ff s l : Nat} {um um1 : Usemap}
    (h : check_use ff um use_he s l = .ok um1) :
    check_use ff um1 use_he s l = .error .cannotShare := by
  have hb := check_use_ok_bounds h
  have hm := (check_use_he_marks h).2
  unfold check_use
  rw [if_neg (by omega),
      if_neg (by push_neg; exact ⟨by omega, by omega, hb.2.2.2⟩),
      if_neg (by rw [hm]; decide),
      if_pos (by rw [hm]; decide),
      if_pos rfl]

theorem check_use_pres_33 {ff u s l : Nat} {um um1 : Usemap}
    (hu : u = use_he ∨ u = use_data ∨ u = use_data ||| use_first)
    {o : Nat} (ho : um o = 33)
    (h : check_use ff um u s l = .ok um1) : um1 o = 33 := by
  have hb := check_use_ok_bounds h
  unfold check_use at h
  rw [if_neg (by omega),
      if_neg (by push_neg; exact ⟨by omega, by omega, hb.2.2.2⟩)] at h
  split at h
  next hz =>
    -- fresh-range branch: the begin byte was 0, the filled bytes were 0,
    -- the end byte holds the stripped tag (≠ 33); position o is untouched
    have hos : o ≠ s := fun he => by rw [he, hz] at ho; cases ho
    split at h
    · cases h
    next um2 s2 heq =>
      cases h
      have hpres : um2 o = umSet um s (u ||| use_begin) o :=
        fillLoop_pres (l - 1) _ s (um2, s2) o
          (by rw [umSet_other _ _ hos, ho]; decide) heq
      have hlast : um2 s2 = stripFirst u :=
        fillLoop_last (l - 1) _ s (um2, s2) (by omega) heq
      have hos2 : o ≠ s2 := by
        intro he
        rw [← he, hpres, umSet_other _ _ hos, ho] at hlast
        rcases hu with rfl | rfl | rfl <;> exact absurd hlast (by decide)
      rw [umSet_other _ _ hos2, hpres, umSet_other _ _ hos, ho]
  next hz =>
    split at h
    next hshare =>
      -- sharing branch: for use_he it errors; otherwise the only write is
      -- to the begin byte, whose stripped tag is 35 ≠ 33, so it is not o
      split at h
      · cases h
      next hhe =>
        have hos : o ≠ s := by
          intro he
          rw [← he, ho] at hshare
          rcases hu with rfl | rfl | rfl
          · exact hhe rfl
          · exact absurd hshare (by decide)
          · exact absurd hshare (by decide)
        split at h
        · cases h
        next s2 heq =>
          split at h
          · cases h
          cases h
          rw [umSet_other _ _ hos, ho]
    · cases h

theorem entryFieldChecks_none_facts {here : HashEntry} {ff : Nat}
    (h : entryFieldChecks here ff = none) :
    0 ≤ here.len ∧ here.packet ≤ ff ∧ here.packet + SIZEOF_DATAHEAD ≤ ff := by
  unfold entryFieldChecks at h
  -- the duplicated boolean check shares its condition, so only 7 splits
  split_ifs at h with h1 h2 h3 h4 h5 h6 h7
  exact ⟨by omega, by omega, by omega⟩

theorem dataheadChecks_none_facts {here : HashEntry} {dh : DataHead}
    (h : dataheadChecks here dh = none) :
    (SIZEOF_DATAHEAD : Int) ≤ dh.allocsize ∧
    ¬ (here.key < here.packet + SIZEOF_DATAHEAD
      ∨ here.key > (here.packet + u32 dh.allocsize) % U32
      ∨ (here.key + u32 here.len) % U32 > (here.packet + u32 dh.allocsize) % U32) := by
  unfold dataheadChecks at h
  split_ifs at h with h1 h2 h3 h4 h5
  exact ⟨by omega, h5⟩

theorem checkEntryStep_ok_parts {db : DB} {ff : Nat} {um um1 : Usemap} {here : HashEntry}
    (h : checkEntryStep db ff um here = .ok um1) :
    entryFieldChecks here ff = none ∧
    check_use ff um (use_data ||| (if here.first ≠ 0 then use_first else 0))
      here.packet (sizeT (db.readDH here.packet).allocsize) = .ok um1 ∧
    dataheadChecks here (db.readDH here.packet) = none := by
  unfold checkEntryStep at h
  split at h
  · cases h
  next hfield =>
    split at h
    · cases h
    next um2 heq =>
      split at h
      · cases h
      next hdh =>
        cases h
        exact ⟨hfield, heq, hdh⟩

theorem checkEntryStep_pres_33 {db : DB} {ff : Nat} {um um1 : Usemap} {here : HashEntry}
    {o : Nat} (ho : um o = 33)
    (h : checkEntryStep db ff um here = .ok um1) : um1 o = 33 := by
  have hparts := checkEntryStep_ok_parts h
  refine check_use_pres_33 ?_ ho hparts.2.1
  by_cases hf : here.first ≠ 0
  · rw [if_pos hf]
    right; right; rfl
  · rw [if_neg hf]
    right; left; decide

theorem walkChain_visits_distinct (db : DB) (ff : Nat) :
    ∀ (fuel : Nat) (um : Usemap) (cnt w t tick : Nat) (r : Usemap × Nat),
      walkChain db ff fuel um cnt w t tick = .ok r →
      (∀ o, um o = 33 → o ∉ chainList db fuel w) ∧ (chainList db fuel w).Nodup := by
  intro fuel
  induction fuel with
  | zero => intro um cnt w t tick r h; cases h
  | succ fuel ih =>
    intro um cnt w t tick r h
    unfold walkChain at h
    unfold chainList
    split at h
    next hend =>
      rw [if_pos hend]
      exact ⟨fun _ _ => List.not_mem_nil _, List.nodup_nil⟩
    next hend =>
      rw [if_neg hend]
      split at h
      · cases h
      next um1 heq1 =>
        split at h
        · cases h
        next um2 heq2 =>
          split at h
          · cases h
          next hcirc =>
            have main : ∀ t2 tk2,
                walkChain db ff fuel um2 (cnt + 1) (db.readHE w).next t2 tk2 = .ok r →
                (∀ o, um o = 33 → o ∉ w :: chainList db fuel (nextOf db w)) ∧
                (w :: chainList db fuel (nextOf db w)).Nodup := by
              intro t2 tk2 hrec
              have hih := ih um2 (cnt + 1) (db.readHE w).next t2 tk2 r hrec
              have hw1 : um1 w = 33 := (check_use_he_marks heq1).2
              have hw2 : um2 w = 33 := checkEntryStep_pres_33 hw1 heq2
              constructor
              · intro o ho hmem
                have ho1 : um1 o = 33 := check_use_pres_33 (Or.inl rfl) ho heq1
                have ho2 : um2 o = 33 := checkEntryStep_pres_33 ho1 heq2
                rcases List.mem_cons.mp hmem with hcase | hcase
                · subst hcase
                  exact check_use_he_marked_not_ok ho heq1
                · exact hih.1 o ho2 hcase
              · exact List.nodup_cons.mpr ⟨fun hmem => hih.1 w hw2 hmem, hih.2⟩
            split at h
            · exact main _ _ h
            · exact main _ _ h

theorem verify_ok_walk {db : DB} {now : Nat} {finalHead : DBHeader} {um : Usemap} {cnt : Nat}
    (hhdr : headerCheck db.head now = none)
    (hwalk : walkBuckets db db.head.first_free.toNat (db.head.first_free.toNat + 2)
      (List.range db.head.module.toNat) zeroUsemap 0 = .ok (um, cnt)) :
    verify_persistent_db db db.head now finalHead =
      if (cnt : Int) ≠ db.head.nentries then some .countMismatch
      else if (List.range db.head.first_free.toNat).any
          (fun idx => um idx == use_data ||| use_begin) then some .unreferencedData
      else if finalHead ≠ db.head then some .headerChanged
      else none := by
  unfold verify_persistent_db
  rw [if_neg (fun hcon => hcon rfl), hhdr, hwalk]

/-- C8: the header validator performs its checks in this exact order with
the first failure winning: format version equals the supported version;
declared header size equals the model's fixed header size; timestamp is
not more than one hour plus sixty seconds ahead of the current time;
generation counter is even; bucket count is nonzero and bounded so
`bucket_count * offset_size` cannot overflow a 32-bit size; heap size is
consistent with bucket count under the same guard; `first_free` is
non-negative, at most the heap size, and block-aligned; `maxnentries` and
`maxnsearched` are non-negative.  Stated as: the source-order check chain
`headerCheck` coincides with the specification's check list
`headerCheckSpec`. -/
theorem c8_header_check_order (h : DBHeader) (now : Nat) :
    headerCheck h now = headerCheckSpec h now := by
  unfold headerCheck headerCheckSpec
  by_cases c1 : h.version ≠ DB_VERSION
  · rw [if_pos c1, if_pos c1]
  rw [if_neg c1, if_neg c1]
  by_cases c2 : h.header_size ≠ HEADER_SIZE
  · rw [if_pos c2, if_pos c2]
  rw [if_neg c2, if_neg c2]
  by_cases c3 : h.timestamp > now + 60 * 60 + 60
  · rw [if_pos c3, if_pos (show now + 3660 < h.timestamp by omega)]
  rw [if_neg c3, if_neg (show ¬ now + 3660 < h.timestamp by omega)]
  by_cases c4 : h.gc_cycle % 2 ≠ 0
  · rw [if_pos c4, if_pos c4]
  rw [if_neg c4, if_neg c4]
  by_cases c5 : h.module = 0
  · rw [if_pos c5, if_pos c5]
  rw [if_neg c5, if_neg c5]
  by_cases c6 : sizeT h.module > 536870911
  · rw [if_pos c6, if_pos (show 2147483647 < 4 * sizeT h.module by omega)]
  rw [if_neg c6, if_neg (show ¬ 2147483647 < 4 * sizeT h.module by omega)]
  by_cases c7 : sizeT h.data_size > 2147483647 - 4 * sizeT h.module
  · rw [if_pos c7,
        if_pos (show 2147483647 < sizeT h.data_size + 4 * sizeT h.module by omega)]
  rw [if_neg c7,
      if_neg (show ¬ 2147483647 < sizeT h.data_size + 4 * sizeT h.module by omega)]
  -- `h.first_free > h.data_size` is definitionally `h.data_size < h.first_free`,
  -- so the remaining check chains are definitionally equal and `rw` closes
  -- the goal by `rfl`.

/-- C5: for every database buffer that passes the header checks (and whose
separately read header copy matches) and whose bucket chains all walk
without a per-entry failure (hypothesis `hwalk`, yielding the total visit
count `cnt`), `verify_persistent_db` fails with the CountMismatch error
("Actual number of records doesn't match with one in header") if and only
if `cnt` differs from the header's declared entry count `nentries`. -/
theorem c5_count_mismatch_iff (db : DB) (now : Nat) (finalHead : DBHeader)
    {um : Usemap} {cnt : Nat}
    (hhdr : headerCheck db.head now = none)
    (hwalk : walkBuckets db db.head.first_free.toNat (db.head.first_free.toNat + 2)
      (List.range db.head.module.toNat) zeroUsemap 0 = .ok (um, cnt)) :
    verify_persistent_db db db.head now finalHead = some .countMismatch ↔
      (cnt : Int) ≠ db.head.nentries := by
  rw [verify_ok_walk hhdr hwalk]
  by_cases hc : (cnt : Int) ≠ db.head.nentries
  · rw [if_pos hc]
    exact ⟨fun _ => hc, fun _ => rfl⟩
  · rw [if_neg hc]
    constructor
    · intro hcontra
      split_ifs at hcontra <;> simp at hcontra
    · intro h2
      exact absurd h2 hc

/-- C6: for every database buffer that reaches the post-walk use-map scan
(header checks pass, the walk succeeds, and the visit count matches
`nentries`), `verify_persistent_db` fails with the UnreferencedAllocation
error ("Unreferenced data and/or keys found") if and only if some use-map
byte below `first_free` equals `use_data_begin` (35), i.e. is tagged as
the beginning of a data-record range but was never marked canonically
referenced (a canonical claim additionally sets the `use_first` bit,
making the byte 51). -/
theorem c6_unreferenced_iff (db : DB) (now : Nat) (finalHead : DBHeader)
    {um : Usemap} {cnt : Nat}
    (hhdr : headerCheck db.head now = none)
    (hwalk : walkBuckets db db.head.first_free.toNat (db.head.first_free.toNat + 2)
      (List.range db.head.module.toNat) zeroUsemap 0 = .ok (um, cnt))
    (hcnt : (cnt : Int) = db.head.nentries) :
    verify_persistent_db db db.head now finalHead = some .unreferencedData ↔
      ∃ idx, idx < db.head.first_free.toNat ∧ um idx = use_data ||| use_begin := by
  rw [verify_ok_walk hhdr hwalk, if_neg (not_not_intro hcnt)]
  by_cases hscan : (List.range db.head.first_free.toNat).any
      (fun idx => um idx == use_data ||| use_begin) = true
  · rw [if_pos hscan]
    simp only [List.any_eq_true, List.mem_range, beq_iff_eq] at hscan
    obtain ⟨idx, hidx, hval⟩ := hscan
    exact ⟨fun _ => ⟨idx, hidx, hval⟩, fun _ => rfl⟩
  · rw [if_neg hscan]
    constructor
    · intro hcontra
      split_ifs at hcontra <;> simp at hcontra
    · intro hex
      obtain ⟨idx, hidx, hval⟩ := hex
      refine absurd ?_ hscan
      simp only [List.any_eq_true, List.mem_range, beq_iff_eq]
      exact ⟨idx, hidx, hval⟩

/-- C4: for every database buffer whose header bytes observed by the final
re-read (`finalHead`) differ from the snapshot taken at the start
(`db.head`), `verify_persistent_db` fails with the ConcurrentMutation
error ("Database header changed in transit"), even when every individual
entry and claim checked during the pass was locally valid (the walk
succeeded, the count matched, and the use-map scan found no orphan). -/
theorem c4_concurrent_mutation_detected (db : DB) (now : Nat) (finalHead : DBHeader)
    {um : Usemap} {cnt : Nat}
    (hhdr : headerCheck db.head now = none)
    (hwalk : walkBuckets db db.head.first_free.toNat (db.head.first_free.toNat + 2)
      (List.range db.head.module.toNat) zeroUsemap 0 = .ok (um, cnt))
    (hcnt : (cnt : Int) = db.head.nentries)
    (hscan : (List.range db.head.first_free.toNat).any
      (fun idx => um idx == use_data ||| use_begin) = false)
    (hneq : finalHead ≠ db.head) :
    verify_persistent_db db db.head now finalHead = some .headerChanged := by
  rw [verify_ok_walk hhdr hwalk, if_neg (not_not_intro hcnt), hscan,
      if_neg (by simp), if_pos hneq]

/-- C10: every database whose header passes the header checks, with
`module = 1`, whose single bucket head holds the "no reference" sentinel
`ENDREF`, and with `nentries = 0`, validates successfully
(`verify_persistent_db` returns `NULL`/`none`, with the undisturbed final
header re-read) and `print_entries` decodes zero records. -/
theorem c10_empty_database_validates (db : DB) (now fuel : Nat)
    (hhdr : headerCheck db.head now = none)
    (hmod : db.head.module = 1)
    (hbucket : db.buckets 0 = ENDREF)
    (hne : db.head.nentries = 0) :
    verify_persistent_db db db.head now db.head = none ∧
    print_entries_count db fuel = 0 := by
  have h1 : db.head.module.toNat = 1 := by rw [hmod]; rfl
  have hwc : walkChain db db.head.first_free.toNat (db.head.first_free.toNat + 2)
      zeroUsemap 0 (db.buckets 0) (db.buckets 0) 0 = .ok (zeroUsemap, 0) := by
    rw [hbucket,
        show db.head.first_free.toNat + 2 = db.head.first_free.toNat + 1 + 1 from rfl]
    simp only [walkChain]
    exact if_pos trivial
  have hwalk : walkBuckets db db.head.first_free.toNat (db.head.first_free.toNat + 2)
      (List.range db.head.module.toNat) zeroUsemap 0 = .ok (zeroUsemap, 0) := by
    rw [h1]
    show walkBuckets db db.head.first_free.toNat (db.head.first_free.toNat + 2)
      (0 :: ([] : List Nat)) zeroUsemap 0 = .ok (zeroUsemap, 0)
    simp only [walkBuckets, hwc]
  constructor
  · rw [verify_ok_walk hhdr hwalk, if_neg (by simp [hne])]
    rw [if_neg ?hscan, if_neg (fun hcon => hcon rfl)]
    case hscan =>
      intro hcon
      simp only [List.any_eq_true] at hcon
      obtain ⟨x, -, hpx⟩ := hcon
      exact Bool.false_ne_true hpx
  · unfold print_entries_count
    rw [h1]
    show (List.map (fun c => printChainCount db fuel (db.buckets c)) (0 :: [])).sum = 0
    simp only [List.map, List.sum_cons, List.sum_nil]
    rw [hbucket]
    cases fuel with
    | zero => rfl
    | succ n =>
      simp only [printChainCount]
      rw [if_pos trivial]
      rfl

/-- Witness for `c10_empty_database_validates` at the concrete boundary
database `dbEmpty` (module 1, bucket head `ENDREF`, `nentries = 0`). -/
theorem c10_witness :
    verify_persistent_db dbEmpty dbEmpty.head 0 dbEmpty.head = none ∧
    print_entries_count dbEmpty 3 = 0 :=
  c10_empty_database_validates dbEmpty 0 3 rfl rfl rfl rfl

/-- C1 (amended): a `next` field pointing back to an earlier entry's
offset in the same bucket chain always makes validation fail, but the
error is not always CircularChain: any chain the walker completes
successfully visits pairwise-distinct offsets (so a back-pointing `next`
forces a failure), and the failure is CircularChain exactly when the fast
cursor lands on the slow cursor's current position — as in the two-entry
cycle `db2cyc` — while otherwise the use-map re-claim of the revisited
hash entry reports CannotShare first (see `c1_counterexample`). -/
theorem c1_back_reference_always_fails :
    (∀ (db : DB) (ff fuel : Nat) (um : Usemap) (cnt w : Nat) (r : Usemap × Nat),
      walkChain db ff fuel um cnt w w 0 = .ok r → (chainList db fuel w).Nodup) ∧
    verify_persistent_db db2cyc db2cyc.head 0 db2cyc.head =
      some VError.circularListDetected :=
  ⟨fun db ff fuel um cnt w r h =>
    (walkChain_visits_distinct db ff fuel um cnt w w 0 r h).2, rfl⟩

/-- C1 counterexample: in the three-entry cycle `db3cyc`
(0 → 32 → 64 → 0, every per-entry check locally valid),
`verify_persistent_db` returns CannotShare ("Hash entry can't be shared"),
not CircularChain ("Circullar list detected"): the revisit of offset 0 is
caught by the use-map sharing check before the two-cursor comparison ever
fires, refuting the claim that such inputs always fail with
CircularChain. -/
theorem c1_counterexample :
    verify_persistent_db db3cyc db3cyc.head 0 db3cyc.head = some VError.cannotShare ∧
    some VError.cannotShare ≠ some VError.circularListDetected :=
  ⟨rfl, by decide⟩

/-- Witness for `c1_back_reference_always_fails`: its universal part
applied to the empty chain of `dbEmpty` (the walk succeeds immediately),
plus its concrete part. -/
theorem c1_witness :
    (chainList dbEmpty 2 ENDREF).Nodup ∧
    verify_persistent_db db2cyc db2cyc.head 0 db2cyc.head =
      some VError.circularListDetected :=
  ⟨c1_back_reference_always_fails.1 dbEmpty 0 2 zeroUsemap 0 ENDREF (zeroUsemap, 0) rfl,
   c1_back_reference_always_fails.2⟩

/-- C7 (code bug): `verify_persistent_db` does not always satisfy
`check_use`'s asserted precondition `len >= 2`.  In `dbShortAlloc` the
entry at offset 0 passes every check up to the data-record claim, whose
length argument is the record's `allocsize = 0`; the claim is made before
`allocsize` is compared with `sizeof (struct datahead)`, so `check_use` is
entered with `len = 0` and `assert (len >= 2)` fires (the model's
`assertLenTooSmall` outcome). -/
theorem c7_assert_precondition_violated :
    verify_persistent_db dbShortAlloc dbShortAlloc.head 0 dbShortAlloc.head =
      some VError.assertLenTooSmall := rfl

/-- C2 (code bug): the decoders perform no bounds checks at all.  For a
data record with `allocsize = 64` — 40 payload bytes after the 24-byte
`struct datahead` — the host decoder fed `hstBad` (`h_name_len = 1000`)
returns the plain count 1032 (> 40) with no error outcome (its result type
has no failure case, so no MalformedPayload is possible), and its name
loop reads `resp_data[998]`, far outside the allocation; the address-info
decoder fed `aiBad` (`canonlen = 500`) likewise returns 524 (> 40). -/
theorem c2_decoders_lack_bounds_checks :
    print_hst_resp_data_consumed hstBad (fun _ => 0) = 1032 ∧
    40 < print_hst_resp_data_consumed hstBad (fun _ => 0) ∧
    998 ∈ print_hst_name_reads hstBad ∧
    print_ai_resp_data_consumed aiBad (fun _ => 0) = 524 ∧
    40 < print_ai_resp_data_consumed aiBad (fun _ => 0) :=
  ⟨rfl, by decide, show 998 ∈ List.range 999 from List.mem_range.mpr (by omega),
   rfl, by decide⟩

/-- C3: the allocation-tracker primitive `check_use` satisfies the three
overlap properties, starting from the freshly calloc'ed all-zero use map:
(1) after successfully claiming a range of one kind, claiming a
well-formed (length ≥ 2, in-bounds, aligned) range of a different base
kind that shares any byte always fails, with InvalidReference ("Invalid
pointer to a hash entry") or the OverlapViolation message "Hash entry
isn't marked as free where it has to be"; (2) claiming the exact same
data-record range a second time with the data kind and non-canonical flag
succeeds; (3) a successfully claimed hash-entry range, re-claimed with the
same start and length, always fails with CannotShare. -/
theorem c3_check_use_overlap_properties :
    (∀ (ff u1 u2 s1 l1 s2 l2 : Nat) (um1 : Usemap),
      (u1 = use_he ∨ u1 = use_data ∨ u1 = use_data ||| use_first) →
      (u2 = use_he ∨ u2 = use_data ∨ u2 = use_data ||| use_first) →
      u1 &&& 15 ≠ u2 &&& 15 →
      check_use ff zeroUsemap u1 s1 l1 = .ok um1 →
      2 ≤ l2 → s2 + l2 ≤ ff → s2 % BLOCK_ALIGN = 0 →
      (∃ b, s1 ≤ b ∧ b < s1 + l1 ∧ s2 ≤ b ∧ b < s2 + l2) →
      ∃ e, check_use ff um1 u2 s2 l2 = .error e ∧
        (e = VError.invalidPointer ∨ e = VError.entryNotFree)) ∧
    (∀ (ff s l : Nat) (um1 : Usemap),
      check_use ff zeroUsemap use_data s l = .ok um1 →
      ∃ um2, check_use ff um1 use_data s l = .ok um2) ∧
    (∀ (ff s l : Nat) (um um1 : Usemap),
      check_use ff um use_he s l = .ok um1 →
      check_use ff um1 use_he s l = .error VError.cannotShare) := by
  refine ⟨?_, ?_, ?_⟩
  · -- (1) overlapping claims of different base kinds always fail
    intro ff u1 u2 s1 l1 s2 l2 um1 hu1 hu2 hbase h hl2 hb2 hal2 hov
    obtain ⟨b, hv1, hv2, hv3, hv4⟩ := hov
    have hbnd := check_use_ok_bounds h
    have hchar := check_use_fresh_char h
    by_cases hin : s1 ≤ s2 ∧ s2 < s1 + l1
    · -- the second start byte lies inside the first range: wrong begin tag
      have hval : um1 s2 = u1 ||| use_begin ∨ um1 s2 = stripFirst u1 ∨
          um1 s2 = stripFirst u1 ||| use_end := by
        rcases show s2 = s1 ∨ (s1 < s2 ∧ s2 < s1 + l1 - 1) ∨ s2 = s1 + l1 - 1 by omega
          with hc | hc | hc
        · rw [hchar s2, if_pos hc]
          exact Or.inl rfl
        · rw [hchar s2, if_neg (by omega), if_pos hc]
          exact Or.inr (Or.inl rfl)
        · rw [hchar s2, if_neg (by omega), if_neg (by omega), if_pos hc]
          exact Or.inr (Or.inr rfl)
      refine ⟨VError.invalidPointer, ?_, Or.inl rfl⟩
      rcases hval with hv | hv | hv <;> rcases hu1 with rfl | rfl | rfl <;>
          rcases hu2 with rfl | rfl | rfl <;>
        first
          | exact absurd (by decide) hbase
          | exact check_use_wrong_tag hl2 hb2 hal2 (by rw [hv]; decide) (by rw [hv]; decide)
    · -- the second range starts strictly before the first: its fill loop
      -- reaches the first range's (nonzero) begin byte
      have hs2lt : s2 < s1 := by omega
      refine ⟨VError.entryNotFree, ?_, Or.inr rfl⟩
      apply check_use_fresh_err hl2 hb2 hal2
      · rw [hchar s2, if_neg (by omega), if_neg (by omega), if_neg (by omega)]
        rfl
      · refine ⟨s1, by omega, by omega, ?_⟩
        rw [hchar s1, if_pos rfl]
        rcases hu1 with rfl | rfl | rfl <;> decide
  · -- (2) aliasing the same data-record range is legal
    intro ff s l um1 h
    have hbnd := check_use_ok_bounds h
    have hchar := check_use_fresh_char h
    refine ⟨umSet um1 s (um1 s ||| (use_data &&& use_first)), ?_⟩
    unfold check_use
    rw [if_neg (by omega),
        if_neg (by push_neg; exact ⟨by omega, by omega, hbnd.2.2.2⟩),
        if_neg (by rw [hchar s, if_pos rfl]; decide),
        if_pos (by rw [hchar s, if_pos rfl]),
        if_neg (by decide)]
    have hsl : shareLoop (umSet um1 s (um1 s ||| (use_data &&& use_first)))
        (stripFirst use_data) s (l - 2) = .ok (s + (l - 2)) := by
      apply shareLoop_ok
      intro i hgt hle
      rw [umSet_other _ _ (by omega), hchar i, if_neg (by omega), if_pos (by omega)]
    have hlast : umSet um1 s (um1 s ||| (use_data &&& use_first)) (s + (l - 2) + 1)
        = stripFirst use_data ||| use_end := by
      rw [umSet_other _ _ (by omega), hchar (s + (l - 2) + 1), if_neg (by omega),
          if_neg (by omega), if_pos (by omega)]
    simp only [hsl]
    rw [if_neg (not_ne_iff.mpr hlast)]
  · -- (3) hash-entry ranges may never be shared
    intro ff s l um um1 h
    exact check_use_he_reshare h

/-- Witness for `c3_check_use_overlap_properties`: a hash-entry claim on
[0,16) followed by an overlapping data claim on [8,16) fails with
InvalidReference or the not-free OverlapViolation; a data claim on [0,16)
re-claimed identically succeeds; a hash-entry claim on [0,16) re-claimed
identically fails with CannotShare. -/
theorem c3_witness :
    (∃ e, check_use 16 (okMap (check_use 16 zeroUsemap use_he 0 16)) use_data 8 8
        = .error e ∧ (e = VError.invalidPointer ∨ e = VError.entryNotFree)) ∧
    (∃ um2, check_use 16 (okMap (check_use 16 zeroUsemap use_data 0 16)) use_data 0 16
        = .ok um2) ∧
    check_use 16 (okMap (check_use 16 zeroUsemap use_he 0 16)) use_he 0 16
        = .error VError.cannotShare :=
  ⟨c3_check_use_overlap_properties.1 16 use_he use_data 0 16 8 8
      (okMap (check_use 16 zeroUsemap use_he 0 16)) (Or.inl rfl) (Or.inr (Or.inl rfl))
      (by decide) rfl (by decide) (by decide) (by decide)
      ⟨8, by decide, by decide, by decide, by decide⟩,
   c3_check_use_overlap_properties.2.1 16 0 16
      (okMap (check_use 16 zeroUsemap use_data 0 16)) rfl,
   c3_check_use_overlap_properties.2.2 16 0 16 zeroUsemap
      (okMap (check_use 16 zeroUsemap use_he 0 16)) rfl⟩

/-- C9: every HashEntry accepted by the per-entry validation step has its
key byte range `[key, key + len)` entirely within the half-open interval
`[packet + sizeof (struct datahead), packet + allocsize)` of its data
record; contrapositively, any entry whose key range falls outside that
interval is rejected (the step cannot return success for it).  The range
hypotheses record that `len` and `allocsize` are `int32` fields and that
`first_free` fits a 32-bit signed size, as guaranteed by the header
checks. -/
theorem c9_key_range_within_allocation (db : DB) (ff : Nat) (um : Usemap)
    (here : HashEntry) {um1 : Usemap}
    (hlen : here.len < 2147483648)
    (halloc : (db.readDH here.packet).allocsize < 2147483648)
    (hff : ff ≤ 2147483648)
    (hok : checkEntryStep db ff um here = .ok um1) :
    ∀ b : Int, (here.key : Int) ≤ b ∧ b < (here.key : Int) + here.len →
      (here.packet : Int) + (SIZEOF_DATAHEAD : Int) ≤ b ∧
      b < (here.packet : Int) + (db.readDH here.packet).allocsize := by
  obtain ⟨hfield, hclaim, hdh⟩ := checkEntryStep_ok_parts hok
  obtain ⟨hlen0, hp1, hp2⟩ := entryFieldChecks_none_facts hfield
  obtain ⟨ha24, hkey⟩ := dataheadChecks_none_facts hdh
  have hbnd := check_use_ok_bounds hclaim
  push_neg at hkey
  obtain ⟨hk1, hk2, hk3⟩ := hkey
  have h24 : (SIZEOF_DATAHEAD : Nat) = 24 := rfl
  have ha0 : (0 : Int) ≤ (db.readDH here.packet).allocsize := by
    rw [show ((SIZEOF_DATAHEAD : Nat) : Int) = 24 from rfl] at ha24
    omega
  have hsz : sizeT (db.readDH here.packet).allocsize
      = (db.readDH here.packet).allocsize.toNat := by
    unfold sizeT
    rw [Int.emod_eq_of_lt ha0 (by omega)]
  have hu32a : u32 (db.readDH here.packet).allocsize
      = (db.readDH here.packet).allocsize.toNat := by
    unfold u32
    rw [Int.emod_eq_of_lt ha0 (by omega)]
  have hu32l : u32 here.len = here.len.toNat := by
    unfold u32
    rw [Int.emod_eq_of_lt hlen0 (by omega)]
  have hPle : here.packet + (db.readDH here.packet).allocsize.toNat ≤ ff := by
    rw [← hsz]
    exact hbnd.2.2.1
  have hmod1 : (here.packet + u32 (db.readDH here.packet).allocsize) % U32
      = here.packet + (db.readDH here.packet).allocsize.toNat := by
    rw [hu32a]
    apply Nat.mod_eq_of_lt
    simp only [U32]
    omega
  rw [hmod1] at hk2
  have hlenN : here.len.toNat < 2147483648 := by omega
  have hmod2 : (here.key + u32 here.len) % U32 = here.key + here.len.toNat := by
    rw [hu32l]
    apply Nat.mod_eq_of_lt
    simp only [U32]
    omega
  rw [hmod1, hmod2] at hk3
  rw [h24] at hk1
  intro b hb
  have hcast1 : ((here.len.toNat : Nat) : Int) = here.len := Int.toNat_of_nonneg hlen0
  have hcast2 : (((db.readDH here.packet).allocsize.toNat : Nat) : Int)
      = (db.readDH here.packet).allocsize := Int.toNat_of_nonneg ha0
  rw [show ((SIZEOF_DATAHEAD : Nat) : Int) = 24 from rfl]
  omega

/-- Witness for `c9_key_range_within_allocation`: the valid entry of
`dbOneGood` (packet 32, allocsize 32, key 56, len 2) is accepted by the
step, and the theorem places the key byte 56 inside [56, 64). -/
theorem c9_witness :
    ((dbOneGood.readHE 0).packet : Int) + (SIZEOF_DATAHEAD : Int) ≤ 56 ∧
    (56 : Int) < ((dbOneGood.readHE 0).packet : Int) +
      (dbOneGood.readDH (dbOneGood.readHE 0).packet).allocsize :=
  c9_key_range_within_allocation dbOneGood 64 zeroUsemap (dbOneGood.readHE 0)
    (by decide) (by decide) (by decide) rfl 56 (by exact ⟨by decide, by decide⟩)

/-- Witness for `c5_count_mismatch_iff` at `dbEmpty`: the walk visits 0
entries, `nentries = 0`, and indeed validation does not report
CountMismatch. -/
theorem c5_witness :
    verify_persistent_db dbEmpty dbEmpty.head 0 dbEmpty.head = some VError.countMismatch
      ↔ ((0 : Nat) : Int) ≠ dbEmpty.head.nentries :=
  c5_count_mismatch_iff dbEmpty 0 dbEmpty.head rfl rfl

/-- Witness for `c6_unreferenced_iff` at `dbOrphan`: its data record at
offset 32 is claimed only by a non-canonical entry, the use-map byte 32
holds `use_data_begin`, and validation reports UnreferencedAllocation. -/
theorem c6_witness :
    verify_persistent_db dbOrphan dbOrphan.head 0 dbOrphan.head
      = some VError.unreferencedData :=
  (c6_unreferenced_iff dbOrphan 0 dbOrphan.head rfl rfl (by decide)).mpr
    ⟨32, by decide, rfl⟩

/-- Witness for `c4_concurrent_mutation_detected`: `dbEmpty` walks
cleanly, but a final header re-read with a different `nentries` makes
validation fail with ConcurrentMutation. -/
theorem c4_witness :
    verify_persistent_db dbEmpty dbEmpty.head 0 (mkHead 1 8 0 1)
      = some VError.headerChanged :=
  c4_concurrent_mutation_detected dbEmpty 0 (mkHead 1 8 0 1) rfl rfl (by decide) rfl
    (by decide)

end NscdDump
